import Mathlib

/-!
Verification of the Profilia financial-report engine.

This file gives a shallow embedding of the KPI resolution, ratio,
CAGR, year-normalization and company-name reconciliation logic of the
repository (the report script and the profile-creation form), and
proves the specified properties about it.

Conventions of the embedding:
* JavaScript objects used as string-keyed dictionaries become
  association lists (List (String × _)); lookup of an absent key
  models the JS value undefined as Option.none.
* JS numbers become rationals; a stored JSON null becomes
  Option.none, so a nested KPI table has type
  List (String × Option Rat).
* JS truthiness coercions are modelled point by point where the code
  relies on them (the expression v || 0 and v || null on numbers, the
  guard name && name.trim()).
* Places where JS could throw a TypeError (indexing a possibly
  undefined object) are instrumented in a separate Except-valued
  version of the resolver, used to state the no-exception contract.
-/

namespace Profilia

/-- Association-list lookup, modelling JS property access on a
string-keyed dictionary: absent key gives none (undefined). -/
def lookupA {α : Type} : List (String × α) → String → Option α
  | [], _ => none
  | (k, v) :: rest, key => if k = key then some v else lookupA rest key

/-- Boolean membership of a character in a list of characters,
modelling the JS expression s.includes(c) for a one-character needle. -/
def containsChar (c : Char) : List Char → Bool
  | [] => false
  | x :: xs => x = c || containsChar c xs

/-- Boolean prefix test on character lists. -/
def isPrefixB : List Char → List Char → Bool
  | [], _ => true
  | _ :: _, [] => false
  | a :: as, b :: bs => a = b && isPrefixB as bs

/-- Boolean substring test on character lists, modelling the JS
expression hay.includes(needle). -/
def containsSub (needle : List Char) : List Char → Bool
  | [] => isPrefixB needle []
  | hay@(_ :: rest) => isPrefixB needle hay || containsSub needle rest

/-- The JS expression hay.includes(needle) on strings. -/
def jsIncludes (hay needle : String) : Bool :=
  containsSub needle.toList hay.toList

/-- The JS expression s.toLowerCase() (ASCII case folding; the code
only relies on it for ASCII key names). -/
def jsToLower (s : String) : String :=
  String.map Char.toLower s

/-- The JS expression s.replace(slash-underscore-g, space): every
underscore becomes a space. -/
def underscoresToSpaces (s : String) : String :=
  String.map (fun c => if c = '_' then ' ' else c) s

/-- Splitting of a character list at every occurrence of a separator,
modelling the JS expression s.split(sep) for a one-character
separator. -/
def splitAux (sep : Char) : List Char → List (List Char)
  | [] => [[]]
  | c :: cs =>
    let rest := splitAux sep cs
    if c = sep then [] :: rest
    else
      match rest with
      | [] => [[c]]
      | r :: rs => (c :: r) :: rs

/-- The JS expression s.split(sep) for a one-character separator. -/
def jsSplit (s : String) (sep : Char) : List String :=
  (splitAux sep s.toList).map List.asString

/-- Numeric value of a decimal digit character. -/
def digitVal (c : Char) : Option Nat :=
  if c = '0' then some 0 else if c = '1' then some 1
  else if c = '2' then some 2 else if c = '3' then some 3
  else if c = '4' then some 4 else if c = '5' then some 5
  else if c = '6' then some 6 else if c = '7' then some 7
  else if c = '8' then some 8 else if c = '9' then some 9
  else none

/-- Accumulating decimal parse of a character list. -/
def parseNatAux : List Char → Nat → Option Nat
  | [], acc => some acc
  | c :: cs, acc =>
    match digitVal c with
    | some d => parseNatAux cs (acc * 10 + d)
    | none => none

/-- The JS expression parseInt(s), modelled for the complete integer
numerals the code feeds it (fiscal-year strings); any other string
gives none (NaN). -/
def jsParseInt (s : String) : Option Int :=
  match s.toList with
  | [] => none
  | '-' :: rest =>
    if rest = [] then none
    else (parseNatAux rest 0).map (fun n => -(n : Int))
  | l => (parseNatAux l 0).map (fun n => (n : Int))

/-- The JS expression String(parseInt(s) - 1); on a non-numeral the
JS arithmetic yields NaN and String renders it as NaN. -/
def parseIntMinusOneStr (s : String) : String :=
  match jsParseInt s with
  | some k => toString (k - 1)
  | none => "NaN"

/-- State of the report data: the flat computed_ratios entries (key
to number) and the nested extracted_kpis tables (French label to a
year-keyed map of nullable numbers). -/
structure Snapshot where
  computedRatios : List (String × Rat)
  extractedKPIs : List (String × List (String × Option Rat))

/-- The yearMappings table of getKPIValue: the six symbolic tokens n,
n1, ..., n5 are normalized to N, N-1, ..., N-5 and every other token
passes through unchanged. -/
def normalizeYear (year : String) : String :=
  if year = "n" then "N"
  else if year = "n1" then "N-1"
  else if year = "n2" then "N-2"
  else if year = "n3" then "N-3"
  else if year = "n4" then "N-4"
  else if year = "n5" then "N-5"
  else year

/-- The kpiNameMappings registry of getKPIValue: canonical KPI key to
the French database label indexing extracted_kpis. -/
def kpiNameMappingsList : List (String × String) :=
  [("chiffre_d_affaires", "Chiffre d\x27affaires"),
   ("resultat_net", "Résultat Net"),
   ("capitaux_propres", "Capitaux propres"),
   ("resultat_d_exploitation", "Résultat d\x27exploitation"),
   ("dotations_d_exploitation", "Dotations d\x27exploitation"),
   ("reprises_d_exploitation", "Reprises d\x27exploitation; transferts de charges"),
   ("redevances_credit_bail", "Redevances de crédit-bail"),
   ("tresorerie_actif", "Trésorerie-Actif"),
   ("titres_valeurs_placement", "Titres Valeurs de placement"),
   ("dettes_financement", "Dettes de financement"),
   ("tresorerie_passif", "Trésorerie-passif"),
   ("tresorerie_nette", "Trésorerie nette"),
   ("comptes_associes_actif", "Compte d\x27associés (Actif)"),
   ("comptes_associes_passif", "Compte d\x27associés (Passif)"),
   ("redevances_moins_un_an", "Redevances restant à payer (a moins d\x27un an)"),
   ("redevances_plus_un_an", "Redevances restant à payer (a plus d\x27un an)"),
   ("prix_achat_residuel", "Prix d\x27achat résiduel en fin du contrat"),
   ("actif_circulant", "Actif circulant"),
   ("passif_circulant", "Passif circulant"),
   ("actif_circulant_total", "Actif circulant total")]

/-- Registry lookup for the key-to-dbKey translation. -/
def kpiNameMappings (key : String) : Option String :=
  lookupA kpiNameMappingsList key

/-- Value of one dependent raw field inside a derivation rule: the JS
expression extractedKPIs[label]?.[year] || 0 — an absent table, an
absent year, a stored null and a stored 0 all give 0. -/
def depValue (s : Snapshot) (label year : String) : Rat :=
  match lookupA s.extractedKPIs label with
  | none => 0
  | some tbl =>
    match lookupA tbl year with
    | none => 0
    | some none => 0
    | some (some v) => v

/-- Body of calculateEBITDA (inside its try block), instrumented for
exceptions; every access is optional-chained, so no throw point
exists and the body is pure arithmetic. -/
def calculateEBITDABody (s : Snapshot) (year : String) : Except String Rat :=
  Except.ok (depValue s "Résultat d\x27exploitation" year
    + depValue s "Dotations d\x27exploitation" year
    - depValue s "Reprises d\x27exploitation; transferts de charges" year)

/-- Body of calculateBFR (inside its try block). -/
def calculateBFRBody (s : Snapshot) (year : String) : Except String Rat :=
  Except.ok (depValue s "Actif circulant" year
    - depValue s "Passif circulant" year)

/-- The JS try/catch wrapper of the derivation rules: a thrown
exception degrades to null, a normal result is returned. -/
def tryCatchNull (e : Except String Rat) : Option Rat :=
  match e with
  | Except.ok v => some v
  | Except.error _ => none

/-- calculateEBITDA: result of exploitation plus depreciation charges
minus write-backs, with missing dependents treated as 0, wrapped in
try/catch. -/
def calculateEBITDA (s : Snapshot) (year : String) : Option Rat :=
  tryCatchNull (calculateEBITDABody s year)

/-- calculateBFR: current assets minus current liabilities, with
missing dependents treated as 0, wrapped in try/catch. -/
def calculateBFR (s : Snapshot) (year : String) : Option Rat :=
  tryCatchNull (calculateBFRBody s year)

/-- Coercion applied by the nested-lookup branch of getKPIValue: the
JS expression extractedKPIs[dbKey][normalizedYear] || null — an
absent year, a stored null and a stored 0 all give null. -/
def falsyToNull : Option (Option Rat) → Option Rat
  | some (some v) => if v = 0 then none else some v
  | some none => none
  | none => none

/-- The final fallback loop of getKPIValue: scan the extracted_kpis
entries in order; on the first key that case-insensitively contains,
or is contained in, the search pattern and whose year map has the
requested year as a property, return the stored value verbatim (which
may be null). -/
def fuzzyScan (pattern year : String) :
    List (String × List (String × Option Rat)) → Option Rat
  | [] => none
  | (k, v) :: rest =>
    if jsIncludes (jsToLower k) pattern || jsIncludes pattern (jsToLower k) then
      match lookupA v year with
      | some stored => stored
      | none => fuzzyScan pattern year rest
    else fuzzyScan pattern year rest

/-- The fuzzy fallback of getKPIValue: the search pattern is the key
lower-cased with underscores replaced by spaces. -/
def fuzzyLookup (s : Snapshot) (kpiName normalizedYear : String) : Option Rat :=
  fuzzyScan (jsToLower (underscoresToSpaces kpiName)) normalizedYear s.extractedKPIs

/-- getKPIValue: resolve a canonical KPI key at a year token against
a snapshot. Order: flat computed_ratios entry, then the ebitda or bfr
derivation, then the nested extracted_kpis lookup through the
registry, then the fuzzy fallback, and finally null. -/
def getKPIValue (s : Snapshot) (kpiName year : String) : Option Rat :=
  let normalizedYear := normalizeYear year
  match lookupA s.computedRatios (kpiName ++ "_" ++ year) with
  | some v => some v
  | none =>
    if kpiName = "ebitda" then calculateEBITDA s normalizedYear
    else if kpiName = "bfr" then calculateBFR s normalizedYear
    else
      match kpiNameMappings kpiName with
      | some dbKey =>
        match lookupA s.extractedKPIs dbKey with
        | some tbl => falsyToNull (lookupA tbl normalizedYear)
        | none => fuzzyLookup s kpiName normalizedYear
      | none => fuzzyLookup s kpiName normalizedYear

/-- Exception access primitive: indexing a possibly undefined value
in JS throws a TypeError when the value is undefined. -/
def jsAccess {α : Type} : Option α → Except String α
  | none => Except.error "TypeError"
  | some a => Except.ok a

/-- Exception-instrumented version of getKPIValue: the one place the
code indexes a nested object, it first checks the guard
extractedKPIs[dbKey] for truthiness, so the subsequent access goes
through jsAccess. -/
def getKPIValueE (s : Snapshot) (kpiName year : String) : Except String (Option Rat) :=
  let normalizedYear := normalizeYear year
  match lookupA s.computedRatios (kpiName ++ "_" ++ year) with
  | some v => Except.ok (some v)
  | none =>
    if kpiName = "ebitda" then Except.ok (tryCatchNull (calculateEBITDABody s normalizedYear))
    else if kpiName = "bfr" then Except.ok (tryCatchNull (calculateBFRBody s normalizedYear))
    else
      match kpiNameMappings kpiName with
      | some dbKey =>
        match lookupA s.extractedKPIs dbKey with
        | some _ =>
          match jsAccess (lookupA s.extractedKPIs dbKey) with
          | Except.error e => Except.error e
          | Except.ok tbl => Except.ok (falsyToNull (lookupA tbl normalizedYear))
        | none => Except.ok (fuzzyLookup s kpiName normalizedYear)
      | none => Except.ok (fuzzyLookup s kpiName normalizedYear)

/-- Value-level content of a rendered CAGR cell: either the no-data
sentinel (a dash) or a percentage with its positivity class; the
decimal-comma text formatting is presentational and not modelled. -/
inductive CAGRCell where
  | noData : CAGRCell
  | value : Rat → Bool → CAGRCell
deriving DecidableEq

/-- renderCAGRCell: null or NaN renders the dash sentinel, otherwise
the percentage with positive meaning cagr greater or equal 0. -/
def renderCAGRCell : Option Rat → CAGRCell
  | none => CAGRCell.noData
  | some c => CAGRCell.value c (decide (0 ≤ c))

/-- The numeric part of computeAndDisplayCAGR: resolve the key at
tokens n and n1; when both are non-null and the prior is nonzero, the
single-period growth ((current / previous) - 1) * 100, else null. The
isNaN guards of the source cannot fire on rational values. -/
def computeCAGR (s : Snapshot) (kpiName : String) : Option Rat :=
  match getKPIValue s kpiName "n", getKPIValue s kpiName "n1" with
  | some current, some previous =>
    if previous ≠ 0 then some ((current / previous - 1) * 100) else none
  | some _, none => none
  | none, _ => none

/-- computeAndDisplayCAGR: the cell written to the document. -/
def computeAndDisplayCAGR (s : Snapshot) (kpiName : String) : CAGRCell :=
  renderCAGRCell (computeCAGR s kpiName)

/-- The JS expression v || 0 applied to a resolved KPI value: null
becomes 0 (and a stored 0 stays 0). -/
def orZero : Option Rat → Rat
  | none => 0
  | some v => v

/-- The ratios record produced by calculateMissingRatios. -/
structure Ratios where
  marge_ebitda : Rat
  marge_exploitation : Rat
  marge_nette : Rat
  roe : Rat
  roce : Rat
  gearing : Rat
  rotation_actifs : Rat
deriving DecidableEq

/-- calculateMissingRatios: derive the percentage ratios for the
current period from resolved base KPIs, with every division guarded
by a strict positivity test on its denominator and 0 as the guarded
result. The try/catch of the source is dead in the embedding since
the body cannot throw. -/
def calculateMissingRatios (s : Snapshot) : Ratios :=
  let chiffreAffaires := orZero (getKPIValue s "chiffre_d_affaires" "n")
  let resultatNet := orZero (getKPIValue s "resultat_net" "n")
  let resultatExploitation := orZero (getKPIValue s "resultat_d_exploitation" "n")
  let capitauxPropres := orZero (getKPIValue s "capitaux_propres" "n")
  let detteNette := orZero (getKPIValue s "dette_nette" "n")
  let ebitda := orZero (calculateEBITDA s "N")
  let actifCirculantTotalN := orZero (getKPIValue s "actif_circulant_total" "n")
  let actifCirculantTotalN1 := orZero (getKPIValue s "actif_circulant_total" "n1")
  let actifCirculantTotalMoyen := (actifCirculantTotalN + actifCirculantTotalN1) / 2
  { marge_ebitda := if chiffreAffaires > 0 then ebitda / chiffreAffaires * 100 else 0
    marge_exploitation :=
      if chiffreAffaires > 0 then resultatExploitation / chiffreAffaires * 100 else 0
    marge_nette := if chiffreAffaires > 0 then resultatNet / chiffreAffaires * 100 else 0
    roe := if capitauxPropres > 0 then resultatNet / capitauxPropres * 100 else 0
    roce := if capitauxPropres > 0 then resultatExploitation / capitauxPropres * 100 else 0
    gearing := if capitauxPropres > 0 then detteNette / capitauxPropres * 100 else 0
    rotation_actifs :=
      if actifCirculantTotalMoyen > 0 then chiffreAffaires / actifCirculantTotalMoyen else 0 }

/-- The liquidity ratio populated by populateKPIMetrics: current
assets over current liabilities at token n, displayed only when both
resolve and the denominator is nonzero; otherwise the no-data value
(the element shows N/A). -/
def ratioLiquiditeGenerale (s : Snapshot) : Option Rat :=
  match getKPIValue s "actif_circulant" "n", getKPIValue s "passif_circulant" "n" with
  | some actifCirculant, some passifCirculant =>
    if passifCirculant ≠ 0 then some (actifCirculant / passifCirculant) else none
  | some _, none => none
  | none, _ => none

/-- The year mapping of replaceYearPlaceholders: from a fiscal-year
spec string, the pair (currentYear, previousYear). A range
Ystart-Yend maps to (Yend, Ystart) — with the JS fallback
years[1] || years[0] when the part after the hyphen is empty — and a
single year Y maps to (Y, String(parseInt(Y) - 1)). -/
def fiscalYearMapping (fiscalYears : String) : String × String :=
  if containsChar '-' fiscalYears.toList then
    let years := jsSplit fiscalYears '-'
    let y0 := years.getD 0 ""
    let y1 := years.getD 1 ""
    (if y1 = "" then y0 else y1, y0)
  else
    (fiscalYears, parseIntMinusOneStr fiscalYears)

/-- The optional _metadata.available_years lists carried by the two
snapshot halves. -/
structure YearMeta where
  computedMeta : Option (List String)
  extractedMeta : Option (List String)

/-- getAvailableYears: prefer the computed_ratios metadata list, then
the extracted_kpis metadata list, then derive two years from the
fiscal-year spec (range Ystart-Yend gives [Ystart, Yend], single year
Y gives [Y - 1, Y]), and default to [N, N-1]. -/
def getAvailableYears (m : YearMeta) (fiscalYears : Option String) : List String :=
  match m.computedMeta with
  | some l => l
  | none =>
    match m.extractedMeta with
    | some l => l
    | none =>
      match fiscalYears with
      | some fy =>
        if containsChar '-' fy.toList then
          let years := jsSplit fy '-'
          let y0 := years.getD 0 ""
          let y1 := years.getD 1 ""
          [y0, if y1 = "" then y0 else y1]
        else
          [parseIntMinusOneStr fy, fy]
      | none => ["N", "N-1"]

/-- The JS expression s.trim(): leading and trailing whitespace
removed (the code only feeds it ordinary names, so ASCII whitespace
semantics suffice). -/
def jsTrim (s : String) : String :=
  List.asString
    (((s.toList.dropWhile Char.isWhitespace).reverse.dropWhile
        Char.isWhitespace).reverse)

/-- The company names collected by verifyProfile from the individual
per-document results: map to company_name, then keep only names that
are truthy and whose trim is truthy (non-null, nonempty, not
whitespace-only); the kept names are not themselves trimmed. -/
def documentCompanies (results : List (Option String)) : List String :=
  (results.filterMap id).filter (fun n => n ≠ "" && jsTrim n ≠ "")

/-- Deduplication with first-occurrence order, modelling the JS
expression Array.from(new Set(list)) on strings (exact,
case-sensitive equality). -/
def dedupFirstAux (seen : List String) : List String → List String
  | [] => []
  | x :: xs =>
    if seen.contains x then dedupFirstAux seen xs
    else x :: dedupFirstAux (x :: seen) xs

/-- Entry point of the Set-based deduplication. -/
def dedupFirst (l : List String) : List String :=
  dedupFirstAux [] l

/-- The comparison_result payload built by verifyProfile on a
mismatch. -/
structure MismatchReport where
  isMatch : Bool
  requiresConfirmation : Bool
  companies : List String
deriving DecidableEq

/-- The company-name mismatch check of verifyProfile: only when more
than one individual result is present, collect the document company
names, deduplicate them exactly, and when more than one distinct name
remains emit the mismatch report (match false, confirmation
required, the distinct names listed); otherwise no report (the flow
proceeds as a match, with no confirmation). -/
def checkCompanyNameMismatch (results : List (Option String)) : Option MismatchReport :=
  if results.length > 1 then
    let uniqueCompanies := dedupFirst (documentCompanies results)
    if uniqueCompanies.length > 1 then
      some { isMatch := false, requiresConfirmation := true, companies := uniqueCompanies }
    else none
  else none

/-! Helper lemmas about the character-level primitives. -/

/-- A list containing the separator is reported by containsChar. -/
theorem containsChar_append_cons (c : Char) (xs ys : List Char) :
    containsChar c (xs ++ c :: ys) = true := by
  induction xs with
  | nil => simp [containsChar]
  | cons x xs ih => simp [containsChar, ih]

/-- Head and tail of a containsChar-negative list. -/
theorem containsChar_false_head {c x : Char} {xs : List Char}
    (h : containsChar c (x :: xs) = false) :
    x ≠ c ∧ containsChar c xs = false := by
  simp only [containsChar, Bool.or_eq_false_iff, decide_eq_false_iff_not] at h
  exact h

/-- Splitting a separator-free list gives a single chunk. -/
theorem splitAux_sepFree (sep : Char) (xs : List Char)
    (h : containsChar sep xs = false) : splitAux sep xs = [xs] := by
  induction xs with
  | nil => rfl
  | cons x xs ih =>
    obtain ⟨hx, hxs⟩ := containsChar_false_head h
    simp [splitAux, hx, ih hxs]

/-- Splitting at the first separator occurrence peels off the
separator-free prefix. -/
theorem splitAux_append_cons (sep : Char) (xs ys : List Char)
    (h : containsChar sep xs = false) :
    splitAux sep (xs ++ sep :: ys) = xs :: splitAux sep ys := by
  induction xs with
  | nil => simp [splitAux]
  | cons x xs ih =>
    obtain ⟨hx, hxs⟩ := containsChar_false_head h
    have hrest := ih hxs
    simp only [List.cons_append, splitAux, List.append_eq, hrest]
    simp [hx]

/-- Splitting a well-formed range string Ystart-Yend at the hyphen
recovers the two year parts. -/
theorem jsSplit_range (a b : String)
    (ha : containsChar '-' a.toList = false)
    (hb : containsChar '-' b.toList = false) :
    jsSplit (a ++ "-" ++ b) '-' = [a, b] := by
  have hdata : (a ++ "-" ++ b).toList = a.toList ++ '-' :: b.toList := by
    show (a.data ++ "-".data) ++ b.data = a.data ++ '-' :: b.data
    simp
  unfold jsSplit
  rw [hdata, splitAux_append_cons _ _ _ ha, splitAux_sepFree _ _ hb]
  rfl

/-- A range string does contain a hyphen. -/
theorem range_containsChar (a b : String) :
    containsChar '-' (a ++ "-" ++ b).toList = true := by
  have hdata : (a ++ "-" ++ b).toList = a.toList ++ '-' :: b.toList := by
    show (a.data ++ "-".data) ++ b.data = a.data ++ '-' :: b.data
    simp
  rw [hdata]
  exact containsChar_append_cons _ _ _

/-! Claim theorems. -/

/-- C10: the year-token normalization of the resolver maps exactly
the six tokens n, n1, n2, n3, n4, n5 to N, N-1, N-2, N-3, N-4, N-5,
and every other token passes through unchanged and is used verbatim
downstream. -/
theorem normalizeYear_tokens :
    (normalizeYear "n" = "N" ∧ normalizeYear "n1" = "N-1"
      ∧ normalizeYear "n2" = "N-2" ∧ normalizeYear "n3" = "N-3"
      ∧ normalizeYear "n4" = "N-4" ∧ normalizeYear "n5" = "N-5")
    ∧ ∀ y : String,
        y ∉ (["n", "n1", "n2", "n3", "n4", "n5"] : List String) →
        normalizeYear y = y := by
  refine ⟨by decide, ?_⟩
  intro y hy
  simp only [List.mem_cons, List.not_mem_nil, or_false, not_or] at hy
  obtain ⟨h1, h2, h3, h4, h5, h6⟩ := hy
  simp [normalizeYear, h1, h2, h3, h4, h5, h6]

/-- Witness for C10: the unmapped token n6 passes through
unchanged. -/
theorem normalizeYear_tokens_witness :
    ("n6" : String) ∉ (["n", "n1", "n2", "n3", "n4", "n5"] : List String)
    ∧ normalizeYear "n6" = "n6" :=
  ⟨by decide, normalizeYear_tokens.2 "n6" (by decide)⟩

/-- C9: for a key without a derivation rule whose flat entry is
absent, a stored numeric 0 at the nested-lookup step is coerced to
null: the resolver returns none, indistinguishable from missing
data. -/
theorem nested_zero_coerced_null (s : Snapshot) (key year dbKey : String)
    (tbl : List (String × Option Rat))
    (hflat : lookupA s.computedRatios (key ++ "_" ++ year) = none)
    (hne : key ≠ "ebitda") (hnb : key ≠ "bfr")
    (hreg : kpiNameMappings key = some dbKey)
    (htbl : lookupA s.extractedKPIs dbKey = some tbl)
    (hzero : lookupA tbl (normalizeYear year) = some (some 0)) :
    getKPIValue s key year = none := by
  simp [getKPIValue, hflat, hne, hnb, hreg, htbl, hzero, falsyToNull]

/-- Witness for C9: capitaux propres stored as exactly 0 for year N
resolves to none. -/
theorem nested_zero_coerced_null_witness :
    getKPIValue ⟨[], [("Capitaux propres", [("N", some 0)])]⟩
      "capitaux_propres" "n" = none :=
  nested_zero_coerced_null
    ⟨[], [("Capitaux propres", [("N", some 0)])]⟩
    "capitaux_propres" "n" "Capitaux propres" [("N", some 0)]
    (by decide) (by decide) (by decide) (by decide) (by decide) (by decide)

/-- C8: the resolver is total and never lets an exception cross the
module boundary: the exception-instrumented evaluation always
succeeds, for every snapshot (including an entirely empty one), every
key and every year token, and agrees with the pure number-or-null
result; failures inside the derivation rules are absorbed by their
try/catch into null. -/
theorem getKPIValue_no_exception (s : Snapshot) (kpiName year : String) :
    getKPIValueE s kpiName year = Except.ok (getKPIValue s kpiName year) := by
  unfold getKPIValueE getKPIValue calculateEBITDA calculateBFR
  rcases hflat : lookupA s.computedRatios (kpiName ++ "_" ++ year) with _ | v
  · by_cases he : kpiName = "ebitda"
    · simp [he]
    · by_cases hb : kpiName = "bfr"
      · simp [he, hb]
      · rcases hreg : kpiNameMappings kpiName with _ | dbKey
        · simp [he, hb, hreg]
        · rcases htbl : lookupA s.extractedKPIs dbKey with _ | tbl
          · simp [he, hb, hreg, htbl]
          · simp [he, hb, hreg, htbl, jsAccess]
  · simp

/-- C2: resolution precedence of the resolver — flat entry keyed by
the raw token, else the ebitda or bfr derivation at the normalized
year, else the nested lookup through the registry at the normalized
year, else the fuzzy fallback, else null (the fuzzy fallback itself
returns none when nothing matches). -/
theorem getKPIValue_precedence (s : Snapshot) (key year : String) :
    (∀ v : Rat, lookupA s.computedRatios (key ++ "_" ++ year) = some v →
        getKPIValue s key year = some v)
    ∧ (lookupA s.computedRatios (key ++ "_" ++ year) = none →
        (key = "ebitda" →
            getKPIValue s key year = calculateEBITDA s (normalizeYear year))
        ∧ (key = "bfr" →
            getKPIValue s key year = calculateBFR s (normalizeYear year))
        ∧ (key ≠ "ebitda" → key ≠ "bfr" →
            (∀ (dbKey : String) (tbl : List (String × Option Rat)),
                kpiNameMappings key = some dbKey →
                lookupA s.extractedKPIs dbKey = some tbl →
                getKPIValue s key year
                  = falsyToNull (lookupA tbl (normalizeYear year)))
            ∧ (kpiNameMappings key = none →
                getKPIValue s key year = fuzzyLookup s key (normalizeYear year))
            ∧ (∀ dbKey : String, kpiNameMappings key = some dbKey →
                lookupA s.extractedKPIs dbKey = none →
                getKPIValue s key year
                  = fuzzyLookup s key (normalizeYear year)))) := by
  constructor
  · intro v hflat
    simp [getKPIValue, hflat]
  · intro hflat
    refine ⟨?_, ?_, ?_⟩
    · intro he
      subst he
      unfold getKPIValue
      rw [hflat]
      simp
    · intro hb
      subst hb
      unfold getKPIValue
      rw [hflat]
      simp
    · intro he hb
      refine ⟨?_, ?_, ?_⟩
      · intro dbKey tbl hreg htbl
        unfold getKPIValue
        rw [hflat]
        simp [he, hb, hreg, htbl]
      · intro hreg
        unfold getKPIValue
        rw [hflat]
        simp [he, hb, hreg]
      · intro dbKey hreg htbl
        unfold getKPIValue
        rw [hflat]
        simp [he, hb, hreg, htbl]

/-- Witness for C2: a key present only in the nested raw table at
the mapped French label resolves through the registry (the example
of the specification), and a key present in the flat table resolves
from it. -/
theorem getKPIValue_precedence_witness :
    getKPIValue ⟨[], [("Chiffre d\x27affaires", [("N", some 12000)])]⟩
      "chiffre_d_affaires" "n" = some 12000
    ∧ getKPIValue ⟨[("capacite_remboursements_n", 7)], []⟩
      "capacite_remboursements" "n" = some 7 := by
  constructor
  · have h :=
      (((getKPIValue_precedence
          ⟨[], [("Chiffre d\x27affaires", [("N", some 12000)])]⟩
          "chiffre_d_affaires" "n").2 (by decide)).2.2
        (by decide) (by decide)).1
        "Chiffre d\x27affaires" [("N", some 12000)] (by decide) (by decide)
    exact h.trans (by decide)
  · exact (getKPIValue_precedence
      ⟨[("capacite_remboursements_n", 7)], []⟩
      "capacite_remboursements" "n").1 7 (by decide)

/-- C3: the CAGR of a key is ((current / previous) - 1) * 100
exactly when both resolved values are non-null (rational values are
always numeric) and the prior value is nonzero, and null otherwise;
a null CAGR is rendered as the no-data sentinel, never as 0. -/
theorem cagr_spec (s : Snapshot) (key : String) :
    (∀ current previous : Rat,
        getKPIValue s key "n" = some current →
        getKPIValue s key "n1" = some previous → previous ≠ 0 →
        computeCAGR s key = some ((current / previous - 1) * 100))
    ∧ (getKPIValue s key "n" = none → computeCAGR s key = none)
    ∧ (getKPIValue s key "n1" = none → computeCAGR s key = none)
    ∧ (∀ current : Rat, getKPIValue s key "n" = some current →
        getKPIValue s key "n1" = some 0 → computeCAGR s key = none)
    ∧ (computeCAGR s key = none →
        computeAndDisplayCAGR s key = CAGRCell.noData) := by
  refine ⟨?_, ?_, ?_, ?_, ?_⟩
  · intro current previous hc hp hnz
    simp [computeCAGR, hc, hp, hnz]
  · intro hc
    simp [computeCAGR, hc]
  · intro hp
    cases hc : getKPIValue s key "n" <;> simp [computeCAGR, hc, hp]
  · intro current hc hp
    simp [computeCAGR, hc, hp]
  · intro hnone
    simp [computeAndDisplayCAGR, hnone, renderCAGRCell]

/-- Witness for C3: current 1100 over previous 1000 gives plus 10
percent, 900 over 1000 gives minus 10 percent, and a prior period of
0 gives the null value rendered as the no-data sentinel. -/
theorem cagr_spec_witness :
    computeCAGR ⟨[("rev_n", 1100), ("rev_n1", 1000)], []⟩ "rev" = some 10
    ∧ computeCAGR ⟨[("rev_n", 900), ("rev_n1", 1000)], []⟩ "rev" = some (-10)
    ∧ computeCAGR ⟨[("rev_n", 5), ("rev_n1", 0)], []⟩ "rev" = none
    ∧ computeAndDisplayCAGR ⟨[("rev_n", 5), ("rev_n1", 0)], []⟩ "rev"
        = CAGRCell.noData := by
  have h1 := (cagr_spec ⟨[("rev_n", 1100), ("rev_n1", 1000)], []⟩ "rev").1
    1100 1000 (by decide) (by decide) (by decide)
  have h2 := (cagr_spec ⟨[("rev_n", 900), ("rev_n1", 1000)], []⟩ "rev").1
    900 1000 (by decide) (by decide) (by decide)
  have h3 := (cagr_spec ⟨[("rev_n", 5), ("rev_n1", 0)], []⟩ "rev").2.2.2.1
    5 (by decide) (by decide)
  have h4 := (cagr_spec ⟨[("rev_n", 5), ("rev_n1", 0)], []⟩ "rev").2.2.2.2 h3
  exact ⟨h1.trans (by norm_num), h2.trans (by norm_num), h3, h4⟩

/-- C7: whenever the dependent raw fields are present at a year, the
derived EBITDA is operating result plus operating depreciation
charges minus operating write-backs, and the derived BFR is current
assets minus current liabilities. -/
theorem ebitda_bfr_derivation_spec (s : Snapshot) (year : String) :
    (∀ (tR tD tRe : List (String × Option Rat)) (r d w : Rat),
        lookupA s.extractedKPIs "Résultat d\x27exploitation" = some tR →
        lookupA tR year = some (some r) →
        lookupA s.extractedKPIs "Dotations d\x27exploitation" = some tD →
        lookupA tD year = some (some d) →
        lookupA s.extractedKPIs
            "Reprises d\x27exploitation; transferts de charges" = some tRe →
        lookupA tRe year = some (some w) →
        calculateEBITDA s year = some (r + d - w))
    ∧ (∀ (tA tP : List (String × Option Rat)) (a p : Rat),
        lookupA s.extractedKPIs "Actif circulant" = some tA →
        lookupA tA year = some (some a) →
        lookupA s.extractedKPIs "Passif circulant" = some tP →
        lookupA tP year = some (some p) →
        calculateBFR s year = some (a - p)) := by
  constructor
  · intro tR tD tRe r d w hR hRy hD hDy hRe hRey
    simp [calculateEBITDA, calculateEBITDABody, tryCatchNull, depValue,
      hR, hRy, hD, hDy, hRe, hRey]
  · intro tA tP a p hA hAy hP hPy
    simp [calculateBFR, calculateBFRBody, tryCatchNull, depValue,
      hA, hAy, hP, hPy]

/-- Witness for C7: operating result 500, depreciation charges 100
and write-backs 50 give EBITDA 550; current assets 800 and current
liabilities 300 give BFR 500. -/
theorem ebitda_bfr_derivation_spec_witness :
    calculateEBITDA
      ⟨[], [("Résultat d\x27exploitation", [("N", some 500)]),
            ("Dotations d\x27exploitation", [("N", some 100)]),
            ("Reprises d\x27exploitation; transferts de charges", [("N", some 50)])]⟩
      "N" = some 550
    ∧ calculateBFR
      ⟨[], [("Actif circulant", [("N", some 800)]),
            ("Passif circulant", [("N", some 300)])]⟩
      "N" = some 500 := by
  have h1 := (ebitda_bfr_derivation_spec
      ⟨[], [("Résultat d\x27exploitation", [("N", some 500)]),
            ("Dotations d\x27exploitation", [("N", some 100)]),
            ("Reprises d\x27exploitation; transferts de charges", [("N", some 50)])]⟩
      "N").1 [("N", some 500)] [("N", some 100)] [("N", some 50)] 500 100 50
      (by decide) (by decide) (by decide) (by decide) (by decide) (by decide)
  have h2 := (ebitda_bfr_derivation_spec
      ⟨[], [("Actif circulant", [("N", some 800)]),
            ("Passif circulant", [("N", some 300)])]⟩
      "N").2 [("N", some 800)] [("N", some 300)] 800 300
      (by decide) (by decide) (by decide) (by decide)
  exact ⟨h1.trans (by norm_num), h2.trans (by norm_num)⟩

/-- C4 counterexample: on the entirely empty snapshot no dependent of
the ebitda derivation resolves to any value, yet resolving ebitda
returns 0, not null — refuting the claim that the derived result is
null when no dependent resolves at all. -/
theorem ebitda_empty_snapshot_cex :
    getKPIValue ⟨[], []⟩ "ebitda" "n" = some 0
    ∧ getKPIValue ⟨[], []⟩ "ebitda" "n" ≠ none := by
  have h : getKPIValue ⟨[], []⟩ "ebitda" "n" = some 0 := by
    norm_num [getKPIValue, lookupA, calculateEBITDA, calculateEBITDABody,
      tryCatchNull, depValue]
  exact ⟨h, by rw [h]; exact Option.some_ne_none 0⟩

/-- C4 as amended: a derivation rule treats missing dependent raw
fields as 0 and always returns the numeric combination; when no
dependent resolves to any value at all the derived result is 0, never
null (the try/catch around the derivation body cannot fire, since
every dependent access is optional-chained). -/
theorem derivation_missing_as_zero (s : Snapshot) (year tok : String)
    (hres : lookupA s.extractedKPIs "Résultat d\x27exploitation" = none)
    (hdot : lookupA s.extractedKPIs "Dotations d\x27exploitation" = none)
    (hrep : lookupA s.extractedKPIs
        "Reprises d\x27exploitation; transferts de charges" = none)
    (hact : lookupA s.extractedKPIs "Actif circulant" = none)
    (hpas : lookupA s.extractedKPIs "Passif circulant" = none)
    (hflatE : lookupA s.computedRatios ("ebitda" ++ "_" ++ tok) = none)
    (hflatB : lookupA s.computedRatios ("bfr" ++ "_" ++ tok) = none) :
    calculateEBITDA s year = some 0
    ∧ calculateBFR s year = some 0
    ∧ getKPIValue s "ebitda" tok = some 0
    ∧ getKPIValue s "bfr" tok = some 0 := by
  have he : calculateEBITDA s year = some 0 := by
    simp [calculateEBITDA, calculateEBITDABody, tryCatchNull, depValue,
      hres, hdot, hrep]
  have hb : calculateBFR s year = some 0 := by
    simp [calculateBFR, calculateBFRBody, tryCatchNull, depValue, hact, hpas]
  have he' : calculateEBITDA s (normalizeYear tok) = some 0 := by
    simp [calculateEBITDA, calculateEBITDABody, tryCatchNull, depValue,
      hres, hdot, hrep]
  have hb' : calculateBFR s (normalizeYear tok) = some 0 := by
    simp [calculateBFR, calculateBFRBody, tryCatchNull, depValue, hact, hpas]
  refine ⟨he, hb, ?_, ?_⟩
  · unfold getKPIValue
    rw [hflatE]
    simpa using he'
  · unfold getKPIValue
    rw [hflatB]
    simpa using hb'

/-- Witness for C4 as amended: the empty snapshot resolves ebitda
and bfr to 0 at token n. -/
theorem derivation_missing_as_zero_witness :
    getKPIValue ⟨[], []⟩ "ebitda" "n" = some 0
    ∧ getKPIValue ⟨[], []⟩ "bfr" "n" = some 0 := by
  have h := derivation_missing_as_zero ⟨[], []⟩ "N" "n"
    (by decide) (by decide) (by decide) (by decide) (by decide)
    (by decide) (by decide)
  exact ⟨h.2.2.1, h.2.2.2⟩

/-- C5: in the ratio engine every division-by-zero or
negative-denominator case resolves to 0 for the percentage ratios —
the three margins when revenue is nonpositive, roe, roce and gearing
when equity is nonpositive, asset rotation when the two-year average
of total current assets is nonpositive — but the liquidity ratio
resolves to null when current liabilities are null or 0; the
0-versus-null distinction is preserved exactly and no case yields an
exception (the functions are total). -/
theorem ratio_engine_zero_null_spec (s : Snapshot) :
    (orZero (getKPIValue s "chiffre_d_affaires" "n") ≤ 0 →
        (calculateMissingRatios s).marge_ebitda = 0
        ∧ (calculateMissingRatios s).marge_exploitation = 0
        ∧ (calculateMissingRatios s).marge_nette = 0)
    ∧ (orZero (getKPIValue s "capitaux_propres" "n") ≤ 0 →
        (calculateMissingRatios s).roe = 0
        ∧ (calculateMissingRatios s).roce = 0
        ∧ (calculateMissingRatios s).gearing = 0)
    ∧ ((orZero (getKPIValue s "actif_circulant_total" "n")
          + orZero (getKPIValue s "actif_circulant_total" "n1")) / 2 ≤ 0 →
        (calculateMissingRatios s).rotation_actifs = 0)
    ∧ (getKPIValue s "passif_circulant" "n" = none →
        ratioLiquiditeGenerale s = none)
    ∧ (getKPIValue s "passif_circulant" "n" = some 0 →
        ratioLiquiditeGenerale s = none) := by
  refine ⟨?_, ?_, ?_, ?_, ?_⟩
  · intro h
    simp [calculateMissingRatios, not_lt.mpr h]
  · intro h
    simp [calculateMissingRatios, not_lt.mpr h]
  · intro h
    simp [calculateMissingRatios, not_lt.mpr h]
  · intro h
    cases ha : getKPIValue s "actif_circulant" "n" <;>
      simp [ratioLiquiditeGenerale, ha, h]
  · intro h
    cases ha : getKPIValue s "actif_circulant" "n" <;>
      simp [ratioLiquiditeGenerale, ha, h]

/-- Witness for C5: with equity resolved to a negative value roe,
roce and gearing are 0 (never null or an exception), and with
current liabilities stored as null the liquidity ratio is null. -/
theorem ratio_engine_zero_null_spec_witness :
    (calculateMissingRatios
        ⟨[("capitaux_propres_n", -5), ("resultat_net_n", 10)], []⟩).roe = 0
    ∧ (calculateMissingRatios
        ⟨[("capitaux_propres_n", -5), ("resultat_net_n", 10)], []⟩).roce = 0
    ∧ (calculateMissingRatios
        ⟨[("capitaux_propres_n", -5), ("resultat_net_n", 10)], []⟩).gearing = 0
    ∧ ratioLiquiditeGenerale
        ⟨[("actif_circulant_n", 7), ("passif_circulant_n", 0)], []⟩ = none := by
  have h1 := (ratio_engine_zero_null_spec
      ⟨[("capitaux_propres_n", -5), ("resultat_net_n", 10)], []⟩).2.1 (by decide)
  have h2 := (ratio_engine_zero_null_spec
      ⟨[("actif_circulant_n", 7), ("passif_circulant_n", 0)], []⟩).2.2.2.2
      (by decide)
  exact ⟨h1.1, h1.2.1, h1.2.2, h2⟩

/-- C6: for a range fiscal-year spec Ystart-Yend the year mapping
sends the current-year token to Yend and the prior-year token to
Ystart (spec 2022-2023 gives current 2023 and previous 2022); and
getAvailableYears prefers the computed metadata list, then the
extracted metadata list, else derives exactly two years from the
spec (single year Y gives [Y - 1, Y], a range gives [Ystart, Yend]),
else defaults to [N, N-1]. -/
theorem year_normalizer_spec :
    (∀ a b : String, containsChar '-' a.toList = false →
        containsChar '-' b.toList = false → b ≠ "" →
        fiscalYearMapping (a ++ "-" ++ b) = (b, a))
    ∧ fiscalYearMapping "2022-2023" = ("2023", "2022")
    ∧ (∀ (l : List String) (em : Option (List String)) (fy : Option String),
        getAvailableYears ⟨some l, em⟩ fy = l)
    ∧ (∀ (l : List String) (fy : Option String),
        getAvailableYears ⟨none, some l⟩ fy = l)
    ∧ (∀ a b : String, containsChar '-' a.toList = false →
        containsChar '-' b.toList = false → b ≠ "" →
        getAvailableYears ⟨none, none⟩ (some (a ++ "-" ++ b)) = [a, b])
    ∧ (∀ (y : String) (k : Int), jsParseInt y = some k →
        containsChar '-' y.toList = false →
        getAvailableYears ⟨none, none⟩ (some y) = [toString (k - 1), y])
    ∧ getAvailableYears ⟨none, none⟩ none = ["N", "N-1"] := by
  refine ⟨?_, by decide, fun l em fy => rfl, fun l fy => rfl, ?_, ?_, rfl⟩
  · intro a b ha hb hbne
    unfold fiscalYearMapping
    rw [range_containsChar, if_pos rfl, jsSplit_range a b ha hb]
    simp [hbne]
  · intro a b ha hb hbne
    dsimp only [getAvailableYears]
    rw [range_containsChar]
    simp only [if_pos rfl, jsSplit_range a b ha hb]
    simp [hbne]
  · intro y k hk hy
    dsimp only [getAvailableYears]
    rw [hy]
    simp [parseIntMinusOneStr, hk]

/-- Witness for C6: the spec 2022-2023 in range form and the single
year 2023, at concrete inputs discharging the well-formedness
hypotheses. -/
theorem year_normalizer_spec_witness :
    fiscalYearMapping ("2022" ++ "-" ++ "2023") = ("2023", "2022")
    ∧ getAvailableYears ⟨none, none⟩ (some ("2022" ++ "-" ++ "2023"))
        = ["2022", "2023"]
    ∧ getAvailableYears ⟨none, none⟩ (some "2023") = ["2022", "2023"]
    ∧ getAvailableYears ⟨some ["2021", "2022", "2023"], none⟩ (some "2023")
        = ["2021", "2022", "2023"] := by
  refine ⟨year_normalizer_spec.1 "2022" "2023" (by decide) (by decide) (by decide),
    year_normalizer_spec.2.2.2.2.1 "2022" "2023" (by decide) (by decide) (by decide),
    ?_, year_normalizer_spec.2.2.1 ["2021", "2022", "2023"] none (some "2023")⟩
  have h := year_normalizer_spec.2.2.2.2.2.1 "2023" 2023 (by decide) (by decide)
  rw [h]
  decide

/-- C1 counterexample: the company-name comparison of verifyProfile
is case-sensitive — the three names Acme SA, ACME SA, Other Co yield
a three-element distinct set (not the two-element case-folded set the
claim states), and two names equal up to case yield a mismatch with
requires_confirmation true rather than a match with no
confirmation. -/
theorem company_mismatch_case_sensitive_cex :
    (dedupFirst (documentCompanies
        [some "Acme SA", some "ACME SA", some "Other Co"])).length = 3
    ∧ checkCompanyNameMismatch [some "Acme SA", some "ACME SA"]
        = some { isMatch := false, requiresConfirmation := true,
                 companies := ["Acme SA", "ACME SA"] } := by
  constructor
  · decide
  · decide

/-- C1 as amended: the reconciliation check collects the company
names that are non-null and not whitespace-only (without trimming or
case-folding them) and deduplicates them under case-sensitive exact
comparison; with more than one document, more than one distinct name
yields the mismatch report with match false and
requires_confirmation true listing the distinct names, and at most
one distinct name (or at most one document) yields no mismatch and
no confirmation; the example names Acme SA, ACME SA, Other Co
therefore give the three-element distinct set and a mismatch. -/
theorem company_mismatch_spec (results : List (Option String)) :
    (results.length > 1 →
        (dedupFirst (documentCompanies results)).length > 1 →
        checkCompanyNameMismatch results
          = some { isMatch := false, requiresConfirmation := true,
                   companies := dedupFirst (documentCompanies results) })
    ∧ ((dedupFirst (documentCompanies results)).length ≤ 1 →
        checkCompanyNameMismatch results = none)
    ∧ (results.length ≤ 1 → checkCompanyNameMismatch results = none) := by
  refine ⟨?_, ?_, ?_⟩
  · intro hlen huniq
    simp [checkCompanyNameMismatch, hlen, huniq]
  · intro huniq
    have h : ¬ (dedupFirst (documentCompanies results)).length > 1 :=
      not_lt.mpr huniq
    by_cases hlen : results.length > 1
    · simp [checkCompanyNameMismatch, hlen, h]
    · simp [checkCompanyNameMismatch, hlen]
  · intro hlen
    simp [checkCompanyNameMismatch, not_lt.mpr hlen]

/-- Witness for C1 as amended: the three example names produce the
mismatch report listing all three distinct names, and two exactly
equal names produce no mismatch. -/
theorem company_mismatch_spec_witness :
    checkCompanyNameMismatch [some "Acme SA", some "ACME SA", some "Other Co"]
      = some { isMatch := false, requiresConfirmation := true,
               companies := ["Acme SA", "ACME SA", "Other Co"] }
    ∧ checkCompanyNameMismatch [some "Acme SA", some "Acme SA"] = none := by
  constructor
  · have h := (company_mismatch_spec
        [some "Acme SA", some "ACME SA", some "Other Co"]).1
        (by decide) (by decide)
    exact h.trans (by decide)
  · exact (company_mismatch_spec [some "Acme SA", some "Acme SA"]).2.1 (by decide)

end Profilia
